import Mathlib

/-!
Verification development for the SACOG major-transit-stops scripts.

The Python sources are shallowly embedded as pure Lean functions:

* namespace Trantxt embeds trantxt2linknode_gis.py (class LinesNodes): the
  stateful text format parser producing line-level attribute rows and
  per-node StopVisit rows.
* namespace AB2097 embeds AB2097_modeled_stops/major_stop_identifier.py
  (class HQTransitStops): line consolidation, stop aggregation, per-node
  service classification, duplicate-service overlap flagging and the final
  major-stop tagging.
* namespace SB79 embeds SB79_modeled_stops/sb79_stop_identifier.py: the
  policy variant adding daily-trip estimation, commuter-rail corridor
  consolidation and the SB79 tier assignment.

Modeling conventions, used consistently below:

* pandas DataFrames become lists of records (one structure per table
  schema); row order follows pandas semantics (merges keep left-frame
  order, value lists keep first-occurrence order).
* Python numeric values (headways, daily trips) become rationals; the
  sources only add, divide and compare small decimal numbers, and no
  stated property depends on binary floating-point rounding.
* Python exceptions that can actually occur on the modeled paths
  (IndexError, UnboundLocalError, KeyError) become an explicit error type
  threaded with Except.
* external collaborators (the highway network bus-lane lookup, county
  polygons, coordinates) are injected as plain lookup functions, as the
  spec directs in its external-interfaces section.
-/

namespace MTS

/-- Splitting loop over character lists, with fuel for termination (the
fuel argument strictly dominates the list length, so it never runs out).
At each position, a leading occurrence of the separator ends the current
piece; otherwise one character is consumed. -/
def splitLGo (sep : List Char) : Nat → List Char → List Char → List (List Char)
  | 0, acc, _ => [acc.reverse]
  | fuel + 1, acc, l =>
    match l with
    | [] => [acc.reverse]
    | c :: rest =>
      if sep.isPrefixOf l then
        acc.reverse :: splitLGo sep fuel [] (l.drop sep.length)
      else
        splitLGo sep fuel (c :: acc) rest

/-- Python str.split with a nonempty separator (also the behavior of
String.splitOn, re-expressed by structural recursion so that concrete
inputs evaluate inside the kernel): left-to-right, non-overlapping,
keeping empty pieces; splitting the empty string gives one empty piece. -/
def pySplit (s sep : String) : List String :=
  if sep.data.isEmpty then [s]
  else (splitLGo sep.data (s.data.length + 1) [] s.data).map String.mk

/-- Python str.strip with no argument: remove leading and trailing
whitespace (the inputs only ever carry ASCII whitespace). -/
def pyStrip (s : String) : String :=
  String.mk (((s.data.dropWhile (fun c => c.isWhitespace)).reverse.dropWhile
    (fun c => c.isWhitespace)).reverse)

/-- Python re.match with a literal pattern: the string starts with it. -/
def pyStartsWith (s p : String) : Bool := p.data.isPrefixOf s.data

/-- Python substring test (the expression b in a for strings): for a
nonempty needle, splitting returns one more piece than the number of
occurrences. -/
def containsStr (a b : String) : Bool :=
  if b == "" then true else (pySplit a b).length > 1

/-- Python str.strip with a single-character argument: removes every
leading and trailing occurrence of that character. -/
def stripChar (c : Char) (s : String) : String :=
  String.mk (((s.data.dropWhile (· == c)).reverse.dropWhile (· == c)).reverse)

/-- First-occurrence deduplication, the order kept by pandas
Series.unique and DataFrame.drop_duplicates. -/
def uniqueList {α} [BEq α] (l : List α) : List α :=
  l.foldl (fun acc k => if acc.contains k then acc else acc ++ [k]) []

/-- Column minimum of a pandas group. Groups are nonempty by construction,
so the default value of the first argument is never used. -/
def colMin {α} [Min α] (d : α) : List α → α
  | [] => d
  | x :: xs => xs.foldl min x

/-- Column maximum of a pandas group; same convention as colMin. -/
def colMax {α} [Max α] (d : α) : List α → α
  | [] => d
  | x :: xs => xs.foldl max x

/-- Python errors that the modeled code paths can raise. -/
inductive PyErr where
  | indexError : PyErr
  | unboundLocalError : PyErr
  | keyError : PyErr
deriving DecidableEq

namespace Trantxt

/-- Field name constants of class LinesNodes (trantxt2linknode_gis.py).
The period-1 names tf1 and headway1 are resolved by get_period_1_name:
the bracketed spelling is kept whenever it occurs in the input file, which
is the case for every concrete input used below. -/
def f_node_attrname : String := "N"

def nodes_long : String := "NODES"

def f_tf_attrnames : List String := ["TF", "TIMEFAC"]

def val_stop : String := "Y"

def val_notstop : String := "N"

def f_linename : String := "LINE NAME"

/-- Recognized line-level attribute names (self.line_attrs). -/
def line_attrs : List String :=
  [f_linename, "TIMEFAC[1]", "TIMEFAC[2]", "TIMEFAC[3]", "TIMEFAC[4]", "TIMEFAC[5]",
   "ONEWAY", "MODE", "FARESYSTEM", "OPERATOR",
   "COLOR", "CIRCULAR", "HEADWAY[1]", "HEADWAY[2]",
   "HEADWAY[3]", "HEADWAY[4]", "HEADWAY[5]"]

/-- Output order of line-level attributes (self.line_attrs_outorder). -/
def line_attrs_outorder : List String :=
  [f_linename, "ONEWAY", "MODE", "FARESYSTEM",
   "OPERATOR", "COLOR", "CIRCULAR", "TIMEFAC[1]", "TIMEFAC[2]", "TIMEFAC[3]",
   "TIMEFAC[4]", "TIMEFAC[5]", "HEADWAY[1]", "HEADWAY[2]", "HEADWAY[3]",
   "HEADWAY[4]", "HEADWAY[5]"]

/-- Source get_period_1_name: keep the bracketed spelling when it occurs in
the file text, otherwise fall back to the spelling without the bracket
suffix; raise when neither occurs (the ConfigurationError of the spec). -/
def get_period_1_name (fileText input_name : String) : Except String String :=
  let output_name :=
    if containsStr fileText input_name then input_name
    else input_name.replace "[1]" ""
  if containsStr fileText output_name then .ok output_name
  else .error (output_name ++ " is not an attribute in the input file")

/-- Python str.strip of the quote character (attr_sp[1].strip of a double
quote). -/
def stripQuotes (s : String) : String := stripChar '"' s

/-- Python node_signed.strip of the minus character. -/
def stripDashes (s : String) : String := stripChar '-' s

/-- Loop body of make_node_lists with the carried tf_change state made
explicit. Tokens come from splitting the accumulated block text on commas;
each token is stripped and split on the equals sign. A token with a name
part that is N or NODES emits a node entry at the current time factor, a
TF or TIMEFAC token updates the carried time factor, any other named
token is ignored, and a bare token is emitted as a node value. -/
def mnl_go (tf_change : String) : List String → List (String × String)
  | [] => []
  | attr :: rest =>
    match (pySplit (pyStrip attr) "=") with
    | attr_name :: v :: _ =>
      if attr_name ∈ [f_node_attrname, nodes_long] then
        (stripQuotes v, tf_change) :: mnl_go tf_change rest
      else if attr_name ∈ f_tf_attrnames then
        mnl_go (stripQuotes v) rest
      else
        mnl_go tf_change rest
    | [node_val] => (node_val, tf_change) :: mnl_go tf_change rest
    | [] => mnl_go tf_change rest

/-- Source make_node_lists: the tf_change local starts at the default
value 0 on every call, one call per line block. -/
def make_node_lists (line_attrs_str : String) : List (String × String) :=
  mnl_go "0" (pySplit line_attrs_str ",")

/-- Time-factor state after the make_node_lists loop consumes a token
list, starting from a given state; mirrors the loop branch for branch. -/
def tf_after (tf_change : String) : List String → String
  | [] => tf_change
  | attr :: rest =>
    match (pySplit (pyStrip attr) "=") with
    | attr_name :: v :: _ =>
      if attr_name ∈ [f_node_attrname, nodes_long] then
        tf_after tf_change rest
      else if attr_name ∈ f_tf_attrnames then
        tf_after (stripQuotes v) rest
      else
        tf_after tf_change rest
    | [_] => tf_after tf_change rest
    | [] => tf_after tf_change rest

/-- Node value emitted for a token, when the token is a node reference
(shape taken from the make_node_lists loop). -/
def nodeValOf? (attr : String) : Option String :=
  match (pySplit (pyStrip attr) "=") with
  | attr_name :: v :: _ =>
    if attr_name ∈ [f_node_attrname, nodes_long] then some (stripQuotes v) else none
  | [node_val] => some node_val
  | [] => none

/-- Modelled from the spec wording only (for comparison with the source):
the value a time-factor attribute token carries, none for any other
token. The most recent such value among the tokens before a node
reference, default 0, is what the spec says the node carries. -/
def tfValue? (attr : String) : Option String :=
  match (pySplit (pyStrip attr) "=") with
  | attr_name :: v :: _ =>
    if attr_name ∈ f_tf_attrnames then some (stripQuotes v) else none
  | _ => none

/-- Python dict insert: overwriting an existing key keeps its position,
a new key is appended. -/
def dictUpsert (d : List (String × String)) (k v : String) : List (String × String) :=
  if d.any (fun p => p.1 == k) then
    d.map (fun p => if p.1 == k then (k, v) else p)
  else d ++ [(k, v)]

/-- Python file.readlines: physical lines, each keeping its trailing
newline; a trailing newline at end of file yields no extra empty entry. -/
def readlines (text : String) : List String :=
  let parts := pySplit text "\n"
  match parts.reverse with
  | [] => []
  | last :: revInit =>
    (revInit.reverse.map (fun s => s ++ "\n")) ++ (if last == "" then [] else [last])

/-- Loop of get_line_attrs. State: the current (line_name, line_attrs)
pair once one has been assigned, and the accumulated dict. A stripped
line starting with LINE NAME begins a new block (the previous block is
only committed by a later non-continuation line); a line ending in a
comma continues the current block; any other line continues and commits
the current block. Python raises IndexError when indexing an empty
stripped line and UnboundLocalError when line_attrs or line_name is used
before the first LINE NAME line. -/
def gla_go : List String → Option (String × String) → List (String × String) →
    Except PyErr (List (String × String))
  | [], _, dict => .ok dict
  | line0 :: rest, curr, dict =>
    if line0.length != 0 then
      let line := pyStrip line0
      match line.data.head? with
      | none => .error .indexError
      | some c0 =>
        if c0 != ';' then
          if pyStartsWith line f_linename then
            match pySplit ((pySplit line ",").headD "") "=" with
            | _ :: nm :: _ => gla_go rest (some (stripQuotes nm, line)) dict
            | _ => .error .indexError
          else
            match curr with
            | none => .error .unboundLocalError
            | some (line_name, prev_attrs) =>
              let line_attrs := prev_attrs ++ line
              if line.data.getLast? == some ',' then
                gla_go rest (some (line_name, line_attrs)) dict
              else
                gla_go rest (some (line_name, line_attrs)) (dictUpsert dict line_name line_attrs)
        else gla_go rest curr dict
    else gla_go rest curr dict

/-- Source get_line_attrs: mapping from line name to the accumulated
comma-delimited attribute text of its block. -/
def get_line_attrs (text : String) : Except PyErr (List (String × String)) :=
  gla_go (readlines text) none []

/-- Source get_line_attr_dict: the recognized KEY=VALUE pairs of a block. -/
def get_line_attr_dict (line_attrs_str : String) : List (String × String) :=
  (pySplit line_attrs_str ",").foldl (fun d attr =>
    match (pySplit (pyStrip attr) "=") with
    | attr_name :: v :: _ =>
      if attr_name ∈ line_attrs then dictUpsert d attr_name (stripQuotes v) else d
    | _ => d) []

/-- Python typed attribute values after ideal_type conversion. -/
inductive PyVal where
  | str : String → PyVal
  | int : Int → PyVal
  | float : ℚ → PyVal
deriving DecidableEq

/-- Digits-only string to Nat, none when empty or not all digits. -/
def digitsToNat? (cs : List Char) : Option Nat :=
  if cs.isEmpty then none
  else if cs.all (fun c => c.isDigit) then
    some (cs.foldl (fun n c => n * 10 + (c.toNat - 48)) 0)
  else none

/-- Python int applied to a string: optional surrounding whitespace,
optional sign, one or more digits (the underscore digit separators Python
also accepts never occur in these inputs). -/
def pyInt? (s : String) : Option Int :=
  match (pyStrip s).data with
  | '-' :: ds => (digitsToNat? ds).map (fun n => -(n : Int))
  | '+' :: ds => (digitsToNat? ds).map (fun n => (n : Int))
  | ds => (digitsToNat? ds).map (fun n => (n : Int))

/-- Python float applied to a letter-free string containing a period (the
only way ideal_type reaches it): optional sign, digits around a single
period, at least one digit in total. -/
def pyFloat? (s : String) : Option ℚ :=
  let t := (pyStrip s).data
  let signed : ℚ × List Char :=
    match t with
    | '-' :: r => (-1, r)
    | '+' :: r => (1, r)
    | r => (1, r)
  match (signed.2.splitOn '.') with
  | [ip, fp] =>
    if ip.isEmpty && fp.isEmpty then none
    else if ip.all (fun c => c.isDigit) && fp.all (fun c => c.isDigit) then
      let ipn : Nat := ip.foldl (fun n c => n * 10 + (c.toNat - 48)) 0
      let fpn : Nat := fp.foldl (fun n c => n * 10 + (c.toNat - 48)) 0
      some (signed.1 * ((ipn : ℚ) + (fpn : ℚ) / ((10 : ℚ) ^ fp.length)))
    else none
  | _ => none

/-- Python re.match of a pattern with letters anywhere (the regex with a
letter class between two dot-stars in ideal_type). -/
def hasLetter (s : String) : Bool := s.data.any (fun c => c.isAlpha)

/-- Source ideal_type: letters mean the value stays a string; otherwise a
period means float conversion, else int conversion; a ValueError from
either conversion falls back to returning the input string. -/
def ideal_type (in_str : String) : PyVal :=
  if hasLetter in_str then .str in_str
  else if containsStr in_str "." then
    match pyFloat? in_str with
    | some q => .float q
    | none => .str in_str
  else
    match pyInt? in_str with
    | some z => .int z
    | none => .str in_str

/-- One output row of the node table: line name, node id with the sign
stripped, zero-based sequence, stop flag, carried time factor. -/
structure NodeRow where
  lname : String
  node : String
  seq : Nat
  stop : String
  tf : String
deriving DecidableEq

/-- Node-row emission loop of make_link_node_outputs: a node value whose
first character is a minus is a pass-through (stop flag N) and has its
minus signs stripped; indexing an empty node value raises IndexError. -/
def nr_go (line_name : String) (seqStart : Nat) :
    List (String × String) → Except PyErr (List NodeRow)
  | [] => .ok []
  | (node_signed, tf) :: rest =>
    match node_signed.data.head? with
    | none => .error .indexError
    | some c =>
      let stop := if c == '-' then val_notstop else val_stop
      let node := if c == '-' then stripDashes node_signed else node_signed
      match nr_go line_name (seqStart + 1) rest with
      | .error e => .error e
      | .ok tail => .ok (⟨line_name, node, seqStart, stop, tf⟩ :: tail)

/-- Line-level output row: every attribute of line_attrs_outorder, a
missing or falsy (empty) value defaulting to the string 0, then every
value converted by ideal_type except the line name which stays text. -/
def line_row_of (line_attrs_dict : List (String × String)) : List (String × PyVal) :=
  line_attrs_outorder.map (fun attrname =>
    let v :=
      match line_attrs_dict.find? (fun p => p.1 == attrname) with
      | some p => if p.2 != "" then p.2 else "0"
      | none => "0"
    if attrname == f_linename then (attrname, PyVal.str v) else (attrname, ideal_type v))

/-- Source make_link_node_outputs. The source wraps this body in a
try/except that catches only KeyError, printing the offending line name
and falling off the end (returning None); no dictionary access in the
body can raise KeyError (every lookup is guarded), so that branch is dead
and the embedding returns the pair directly. The Python exceptions that
can occur (IndexError, UnboundLocalError) are modeled as error values. -/
def make_link_node_outputs (text : String) :
    Except PyErr (List (List (String × PyVal)) × List NodeRow) := do
  let lines_dict ← get_line_attrs text
  lines_dict.foldlM (fun acc p => do
    let line_attrs_dict := get_line_attr_dict p.2
    let node_tf_array := make_node_lists p.2
    let rows ← nr_go p.1 0 node_tf_array
    pure (acc.1 ++ [line_row_of line_attrs_dict], acc.2 ++ rows))
    (([], []) : List (List (String × PyVal)) × List NodeRow)

/-- Concrete two-block input: the first block changes the carried time
factor to 2.5 mid-block and ends there; a second block follows. -/
def tx_two_blocks : String :=
  ";comment\nLINE NAME=\"L1\", MODE=1, HEADWAY[1]=30, TIMEFAC[1]=1.1,\nN=1, TF=2.5, 2,\n-3\nLINE NAME=\"L2\", MODE=2,\nN=4, 5"

/-- Concrete one-block input containing the token FOO BAR, which is
neither a KEY=VALUE attribute nor an integer node reference. -/
def tx_garbage_token : String :=
  "LINE NAME=\"LX\", MODE=1, TIMEFAC[1]=1, HEADWAY[1]=30,\nN=1, FOO BAR, -2"

/-- Concrete one-block input with an empty node token (two consecutive
commas). -/
def tx_empty_token : String :=
  "LINE NAME=\"LY\", MODE=1, TIMEFAC[1]=1, HEADWAY[1]=30,\nN=1,,2"

end Trantxt

/-- Directional suffix tags, identical in both HQTransitStops classes. -/
def dir_tags : List String := ["_A", "_B"]

/-- Python s[-2:]: the last two characters (the whole string when it is
shorter than two characters). -/
def strTail2 (s : String) : String := String.mk (s.data.drop (s.data.length - 2))

/-- Python s[:-2]: everything but the last two characters. -/
def strDropTail2 (s : String) : String := String.mk (s.data.take (s.data.length - 2))

/-- Source strip_dirtag, identical in both scripts: remove the two-character
direction tag only when the name ends in one. -/
def strip_dirtag (in_str : String) : String :=
  if strTail2 in_str ∈ dir_tags then strDropTail2 in_str else in_str

/-- Express-bus-coded routes that are really rail, identical in both
scripts (self.rail_exceptions). -/
def rail_exceptions : List String :=
  ["AMTRCC_A", "AMTRCC_B", "AMTRCCS_A", "AMTRCCS_B",
   "ZF_AMTRCCR_A", "ZF_AMTRCCR_B", "ZF_AMTRJPA_A", "ZF_AMTRJPA_B"]

/-- Rail exception names with the direction tag stripped
(self.rail_exceptions_trimmed). -/
def rail_exceptions_trimmed : List String := rail_exceptions.map strip_dirtag

/-- Rail mode code (self.mode_rail), identical in both scripts. -/
def mode_rail : Int := 1

/-- Max headway in minutes to qualify as hi-freq for hi-freq intersections
(self.hifreq_ix_th), identical in both scripts. -/
def hifreq_ix_th : ℚ := 20.9

/-- Max headway in minutes to qualify as BRT (self.hifreq_brt_th),
identical in both scripts. -/
def hifreq_brt_th : ℚ := 15.9

namespace AB2097

/-- One consolidated input line record with the columns create_line_df
keeps: line name, mode, color, headway1 (PM peak) and headway3 (AM peak).
Numeric model: headways as rationals (see the file comment). -/
structure TranLine where
  lname : String
  mode : Int
  color : Int
  headway1 : ℚ
  headway3 : ℚ
deriving DecidableEq

/-- One parsed stop-visit row with the columns create_stops_df keeps; the
node id is already converted to an integer (the astype int step). -/
structure StopVisitRow where
  lname : String
  n : Int
  stopflag : String
deriving DecidableEq

/-- Consolidated line row after the direction tag is stripped and the
group is reduced (one row per distinct stripped name). -/
structure LineNodir where
  lname_nodir : String
  mode : Int
  color : Int
  headway1 : ℚ
  headway3 : ℚ
deriving DecidableEq

/-- Source create_line_df: strip the direction tag from each line name,
then group by the stripped name and take the per-column minimum. pandas
sorts the group keys; the embedding keeps them in first-occurrence order,
which never matters to the properties proved here (they concern the set
of result rows, or single-group inputs). -/
def create_line_df (line_data : List TranLine) : List LineNodir :=
  let keyed := line_data.map (fun r => (strip_dirtag r.lname, r))
  (uniqueList (keyed.map (fun p => p.1))).map (fun k =>
    let grp := (keyed.filter (fun p => p.1 == k)).map (fun p => p.2)
    { lname_nodir := k,
      mode := colMin 0 (grp.map (fun r => r.mode)),
      color := colMin 0 (grp.map (fun r => r.color)),
      headway1 := colMin 0 (grp.map (fun r => r.headway1)),
      headway3 := colMin 0 (grp.map (fun r => r.headway3)) })

/-- Row of self.df_nodes: stop-flagged visits with the stripped name
added, line name kept (used later by flag_dup_svc to gather each route's
stop nodes). -/
structure StopNodir where
  lname : String
  n : Int
  stopflag : String
  lname_nodir : String
deriving DecidableEq

/-- The df_nodes table of create_stops_df: visits filtered to stop nodes
(flag Y), with the direction-stripped name added. -/
def df_nodes_of (node_data : List StopVisitRow) : List StopNodir :=
  (node_data.filter (fun r => r.stopflag == "Y")).map
    (fun r => ⟨r.lname, r.n, r.stopflag, strip_dirtag r.lname⟩)

/-- Deduplicated stop row without the directional line name. -/
structure StopNodeRow where
  n : Int
  stopflag : String
  lname_nodir : String
deriving DecidableEq

/-- Source create_stops_df: drop the directional line name column and
deduplicate (pandas drop_duplicates keeps the first occurrence). -/
def create_stops_df (node_data : List StopVisitRow) : List StopNodeRow :=
  uniqueList ((df_nodes_of node_data).map (fun r => ⟨r.n, r.stopflag, r.lname_nodir⟩))

/-- Row of df_linenode_joined after the bus-lane tagging: one row per
(stop node, consolidated line serving it). -/
structure JoinedRow where
  n : Int
  stopflag : String
  lname_nodir : String
  mode : Int
  color : Int
  headway1 : ℚ
  headway3 : ℚ
  buslane : Int
deriving DecidableEq

/-- Inner merge of the stop rows with the consolidated lines on the
stripped name (pandas keeps left-frame row order), composed with
get_buslane_info. get_buslane_info reads the highway network, an external
collaborator; it is injected here as a per-node 0/1 lookup. -/
def merge_stops_lines (stops : List StopNodeRow) (lines : List LineNodir)
    (buslane : Int → Int) : List JoinedRow :=
  stops.flatMap (fun s =>
    (lines.filter (fun ln => ln.lname_nodir == s.lname_nodir)).map (fun ln =>
      ⟨s.n, s.stopflag, s.lname_nodir, ln.mode, ln.color, ln.headway1, ln.headway3,
       buslane s.n⟩))

/-- Rail filter of get_node_svc_data: rail mode, or a name on the trimmed
rail exception list. -/
def railPred (r : JoinedRow) : Bool :=
  r.mode == mode_rail || rail_exceptions_trimmed.contains r.lname_nodir

/-- BRT filter of get_node_svc_data: non-rail, non-exception, both peak
headways nonzero and at most the BRT threshold, and served by bus lanes. -/
def brtPred (r : JoinedRow) : Bool :=
  (r.mode != mode_rail) && !(rail_exceptions_trimmed.contains r.lname_nodir)
    && decide (r.headway3 > 0) && decide (r.headway3 ≤ hifreq_brt_th)
    && decide (r.headway1 > 0) && decide (r.headway1 ≤ hifreq_brt_th)
    && decide (r.buslane > 0)

/-- Hi-frequency filter of get_node_svc_data: non-rail, non-exception,
both peak headways nonzero and at most the intersection threshold. -/
def hifreqPred (r : JoinedRow) : Bool :=
  (r.mode != mode_rail) && !(rail_exceptions_trimmed.contains r.lname_nodir)
    && decide (r.headway3 > 0) && decide (r.headway3 ≤ hifreq_ix_th)
    && decide (r.headway1 > 0) && decide (r.headway1 ≤ hifreq_ix_th)

/-- Per-node service record assembled by get_node_svc_data. -/
structure NodeSvc where
  n : Int
  all_lines : String
  rail_lines : String
  brt_lines : String
  hifreq_lines : String
  cnt_hifreqlines : Nat
deriving DecidableEq

/-- Source get_node_svc_data: restrict the joined table to one node,
apply the three service filters, and join the name columns with
semicolons (the join of an empty selection is the empty string, exactly
the guarded Python expression). -/
def get_node_svc_data (df_lnd_data : List JoinedRow) (node_id : Int) : NodeSvc :=
  let df_node := df_lnd_data.filter (fun r => r.n == node_id)
  let df_node_rail := df_node.filter railPred
  let df_node_brt := df_node.filter brtPred
  let df_node_hifreq := df_node.filter hifreqPred
  { n := node_id,
    all_lines := String.intercalate ";" (df_node.map (fun r => r.lname_nodir)),
    rail_lines := String.intercalate ";" (df_node_rail.map (fun r => r.lname_nodir)),
    brt_lines := String.intercalate ";" (df_node_brt.map (fun r => r.lname_nodir)),
    hifreq_lines := String.intercalate ";" (df_node_hifreq.map (fun r => r.lname_nodir)),
    cnt_hifreqlines := df_node_hifreq.length }

/-- Source compare_lists: true when all stops of one line lie on the
other line, in either direction. -/
def compare_lists (l1 l2 : List Int) : Bool :=
  let l1_in_l2 := l1.all (fun i => l2.contains i)
  let l2_in_l1 := l2.all (fun i => l1.contains i)
  l1_in_l2 || l2_in_l1

/-- Stop nodes of a route, read off self.df_nodes by stripped name. -/
def lnodes_of (df_nodes : List StopNodir) (lname : String) : List Int :=
  (df_nodes.filter (fun r => r.lname_nodir == lname)).map (fun r => r.n)

/-- The ordered (lname, l_comp) pairs visited by the double loop in
flag_dup_svc: every name against every other name. -/
def olap_pairs (lnames : List String) : List (String × String) :=
  lnames.flatMap (fun lname =>
    (lnames.filter (fun l => l != lname)).map (fun l_comp => (lname, l_comp)))

/-- Pair loop of flag_dup_svc for one node: each overlapping pair whose
reverse is not already a substring of the growing warning string appends
its tag to the warning and records a (node, warning-so-far) row. -/
def olap_fold (node : Int) (tdict : String → List Int) :
    String → List (String × String) → List (Int × String)
  | _, [] => []
  | overlap_warning, (lname, l_comp) :: rest =>
    if compare_lists (tdict lname) (tdict l_comp) then
      let olap := lname ++ "-" ++ l_comp
      let olap_rev := l_comp ++ "-" ++ lname
      if containsStr overlap_warning olap_rev then
        olap_fold node tdict overlap_warning rest
      else
        let w := overlap_warning ++ olap ++ ";"
        (node, w) :: olap_fold node tdict w rest
    else olap_fold node tdict overlap_warning rest

/-- Rows of df_hf in flag_dup_svc: no rail line, no BRT line, more than
one hi-frequency line. -/
def df_hf_of (in_hqt_node_df : List NodeSvc) : List NodeSvc :=
  in_hqt_node_df.filter (fun r =>
    r.rail_lines == "" && r.brt_lines == "" && decide (r.cnt_hifreqlines > 1))

/-- The node_overlap_data rows of flag_dup_svc: for each df_hf node, split
its hi-frequency line names (taking the first matching row, as the
Python .values[0] does; the try/except around it, which would drop into an
interactive debugger, is unreachable because every listed node comes from
df_hf) and run the pair loop over each route's stop-node list. -/
def node_overlap_rows (df_hf : List NodeSvc) (df_nodes : List StopNodir) :
    List (Int × String) :=
  (uniqueList (df_hf.map (fun r => r.n))).flatMap (fun node =>
    let lnames :=
      match df_hf.find? (fun r => r.n == node) with
      | some r => pySplit r.hifreq_lines ";"
      | none => []
    olap_fold node (lnodes_of df_nodes) "" (olap_pairs lnames))

/-- Per-node service record together with its overlap annotation. -/
structure MergedRow where
  svc : NodeSvc
  overlap : String
deriving DecidableEq

/-- Left-merge step of flag_dup_svc for one left row: pandas left merge
emits one output row per matching right row; a row without a match gets a
single output row whose missing annotation is filled with the empty
string (the fillna step). -/
def fds_merge (df_node_overlap : List (Int × String)) (r : NodeSvc) : List MergedRow :=
  match df_node_overlap.filter (fun p => p.1 == r.n) with
  | [] => [⟨r, ""⟩]
  | ms => ms.map (fun m => ⟨r, m.2⟩)

/-- Source flag_dup_svc: compute the overlap rows, then left-merge them
onto the node table. A node with several recorded overlap rows is
duplicated by the merge. -/
def flag_dup_svc (in_hqt_node_df : List NodeSvc) (df_nodes : List StopNodir) :
    List MergedRow :=
  in_hqt_node_df.flatMap
    (fds_merge (node_overlap_rows (df_hf_of in_hqt_node_df) df_nodes))

/-- Category tags of make_hq_stop_df. -/
def not_maj : String := "Non-major stop"

def maj_rail : String := "Rail"

def maj_brt : String := "BRT"

def maj_ix : String := "2+ Hi-frequency bus routes"

/-- The three sequential column assignments of make_hq_stop_df: default
to non-major, overwrite with Rail where the rail list is nonblank, then
overwrite with BRT where the BRT list is nonblank. The BRT assignment
runs last, so it overwrites Rail on rows where both lists are nonblank. -/
def init_maj_stop (r : NodeSvc) : String :=
  let m := not_maj
  let m := if !(["", " "].contains r.rail_lines) then maj_rail else m
  let m := if !(["", " "].contains r.brt_lines) then maj_brt else m
  m

/-- Final output row of make_hq_stop_df. -/
structure HqStopRow where
  svc : NodeSvc
  overlap : String
  maj_stop : String
  net_hifreqlines : Nat
deriving DecidableEq

/-- Pair-collapsing loop inside get_hifreq_ix: each overlap pair removes
its two member lines from the hi-frequency list and appends itself as one
unit. Splitting a pair without a dash would raise IndexError in Python. -/
def collapse_pairs : List String → List String → Except PyErr (List String)
  | [], hfl_list => .ok hfl_list
  | lpair :: rest, hfl_list =>
    match pySplit lpair "-" with
    | l1 :: l2 :: _ =>
      collapse_pairs rest ((hfl_list.filter (fun i => i != l1 && i != l2)) ++ [lpair])
    | _ => .error .indexError

/-- Source get_hifreq_ix (inner function of make_hq_stop_df): only rows
still tagged non-major with more than one hi-frequency line are touched.
With a nonblank overlap annotation the flagged pairs are collapsed and
the row becomes a hi-frequency intersection only when more than one unit
remains, recording the net unit count; with a blank annotation the row
becomes a hi-frequency intersection directly. -/
def get_hifreq_ix (row : HqStopRow) : Except PyErr HqStopRow :=
  if decide (row.svc.cnt_hifreqlines > 1) && (row.maj_stop == not_maj) then
    if row.overlap != "" then
      let osplit := (pySplit row.overlap ";").filter (fun i => decide (i.length > 0))
      let hfl_list := pySplit row.svc.hifreq_lines ";"
      match collapse_pairs osplit hfl_list with
      | .error e => .error e
      | .ok hfl =>
        let row := if decide (hfl.length > 1) then { row with maj_stop := maj_ix } else row
        .ok { row with net_hifreqlines := hfl.length }
    else
      .ok { row with maj_stop := maj_ix }
  else
    .ok row

/-- One merged row through the tagging steps of make_hq_stop_df: the
three sequential category assignments, the net column preset to the raw
count, then get_hifreq_ix. -/
def classify_row (m : MergedRow) : Except PyErr HqStopRow :=
  get_hifreq_ix ⟨m.svc, m.overlap, init_maj_stop m.svc, m.svc.cnt_hifreqlines⟩

/-- Source make_hq_stop_df: consolidate lines, build the stop table, join
them, tag bus lanes, assemble one service record per unique stop node,
flag duplicate service, assign categories, refine the hi-frequency
intersection tag, and optionally drop non-major rows. When the stop-node
list is empty, pd.DataFrame of the empty record list has no columns, so
the first column selection inside flag_dup_svc raises KeyError. -/
def make_hq_stop_df (line_data : List TranLine) (node_data : List StopVisitRow)
    (buslane : Int → Int) (keep_all : Bool) : Except PyErr (List HqStopRow) :=
  let df_hq_lines := create_line_df line_data
  let df_stopnodes := create_stops_df node_data
  let stopnode_list := uniqueList (df_stopnodes.map (fun r => r.n))
  let df_linenode_joined := merge_stops_lines df_stopnodes df_hq_lines buslane
  let node_svc_data := stopnode_list.map (get_node_svc_data df_linenode_joined)
  if node_svc_data.isEmpty then .error .keyError
  else
    match (flag_dup_svc node_svc_data (df_nodes_of node_data)).mapM classify_row with
    | .error e => .error e
    | .ok final =>
      .ok (if keep_all then final else final.filter (fun r => r.maj_stop != not_maj))

/-- Concrete input for the rail/BRT precedence scenario: one rail-mode
line and one BRT-qualifying bus line, both stopping at node 5, which is
served by bus lanes. -/
def c1lines : List TranLine := [⟨"RAILX", 1, 0, 30, 30⟩, ⟨"BUS1", 2, 0, 10, 10⟩]

def c1stops : List StopVisitRow := [⟨"RAILX", 5, "Y"⟩, ⟨"BUS1", 5, "Y"⟩]

/-- Concrete input for the overlap-collapse scenario of the spec: line L1
stops at 1,2,3,4 and line L2 at 2,3; both are non-rail and
headway-qualifying, no bus lanes. -/
def c2lines : List TranLine := [⟨"L1", 2, 0, 10, 10⟩, ⟨"L2", 2, 0, 10, 10⟩]

def c2stops : List StopVisitRow :=
  [⟨"L1", 1, "Y"⟩, ⟨"L1", 2, "Y"⟩, ⟨"L1", 3, "Y"⟩, ⟨"L1", 4, "Y"⟩,
   ⟨"L2", 2, "Y"⟩, ⟨"L2", 3, "Y"⟩]

/-- The same scenario with a third qualifying line L3 at 5,6,2 sharing no
containment relation with L1 or L2. -/
def c2linesB : List TranLine := c2lines ++ [⟨"L3", 2, 0, 10, 10⟩]

def c2stopsB : List StopVisitRow := c2stops ++ [⟨"L3", 5, "Y"⟩, ⟨"L3", 6, "Y"⟩, ⟨"L3", 2, "Y"⟩]

/-- Concrete input with two distinct flagged overlap pairs at node 2:
B at 2,3 and C at 2,4 are both nested in A at 1,2,3,4, while B and C are
not nested in each other. -/
def c8lines : List TranLine := [⟨"A", 2, 0, 10, 10⟩, ⟨"B", 2, 0, 10, 10⟩, ⟨"C", 2, 0, 10, 10⟩]

def c8stops : List StopVisitRow :=
  [⟨"A", 1, "Y"⟩, ⟨"A", 2, "Y"⟩, ⟨"A", 3, "Y"⟩, ⟨"A", 4, "Y"⟩,
   ⟨"B", 2, "Y"⟩, ⟨"B", 3, "Y"⟩, ⟨"C", 2, "Y"⟩, ⟨"C", 4, "Y"⟩]

end AB2097

namespace SB79

/-- Commuter-rail color code (self.color_commrail). -/
def color_commrail : Int := 6

/-- One input line record with the five headway columns kept by the SB79
create_line_df. -/
structure SbLine where
  lname : String
  mode : Int
  color : Int
  headway1 : ℚ
  headway2 : ℚ
  headway3 : ℚ
  headway4 : ℚ
  headway5 : ℚ
deriving DecidableEq

/-- Source get_daily_trips: per period, period duration divided by the
headway when the headway is positive, summed over the five periods. The
durations come from self.headway_info (headway1 through headway5 paired
with 240, 360, 180, 120 and 240 minutes). -/
def get_daily_trips (r : SbLine) : ℚ :=
  [((r.headway1 : ℚ), (240 : ℚ)), (r.headway2, 360), (r.headway3, 180),
   (r.headway4, 120), (r.headway5, 240)].foldl
    (fun acc p => if p.1 > 0 then acc + p.2 / p.1 else acc) 0

/-- Consolidated SB79 line row. -/
structure SbLineNodir where
  lname_nodir : String
  mode : Int
  color : Int
  headway1 : ℚ
  headway2 : ℚ
  headway3 : ℚ
  headway4 : ℚ
  headway5 : ℚ
  day_trips : ℚ
deriving DecidableEq

/-- Source SB79 create_line_df: compute daily trips per directional
record, strip the direction tag, then group by the stripped name TOGETHER
with mode and color (the gbcols list), taking the minimum of each headway
column and the sum of daily trips. First-occurrence key order as in the
AB2097 embedding. -/
def create_line_df (line_data : List SbLine) : List SbLineNodir :=
  let keyed := line_data.map (fun r => ((strip_dirtag r.lname, r.mode, r.color), r))
  (uniqueList (keyed.map (fun p => p.1))).map (fun k =>
    let grp := (keyed.filter (fun p => p.1 == k)).map (fun p => p.2)
    { lname_nodir := k.1, mode := k.2.1, color := k.2.2,
      headway1 := colMin 0 (grp.map (fun r => r.headway1)),
      headway2 := colMin 0 (grp.map (fun r => r.headway2)),
      headway3 := colMin 0 (grp.map (fun r => r.headway3)),
      headway4 := colMin 0 (grp.map (fun r => r.headway4)),
      headway5 := colMin 0 (grp.map (fun r => r.headway5)),
      day_trips := (grp.map get_daily_trips).sum })

/-- Row of the SB79 joined line-node table, with the fields used by
add_corridor_lname and the commuter-rail aggregation of
get_node_svc_data: stop node, stripped line name, mode, color, daily
trips and the corridor name column. -/
structure SbJoined where
  n : Int
  lname_nodir : String
  mode : Int
  color : Int
  day_trips : ℚ
  corrname : String
deriving DecidableEq

/-- Stop nodes of a line in the joined table, by stripped name. The node
and name columns are never written by add_corridor_lname, so reading them
from the original table matches the in-place pandas updates. -/
def nodes_of (rows : List SbJoined) (lname : String) : List Int :=
  (rows.filter (fun r => r.lname_nodir == lname)).map (fun r => r.n)

/-- The ordered (lname, lname2) pairs visited by the double loop of
add_corridor_lname: deduplicated names, each against the deduplicated
names of the other rows. -/
def acl_pairs (rows : List SbJoined) : List (String × String) :=
  (uniqueList (rows.map (fun r => r.lname_nodir))).flatMap (fun lname =>
    (uniqueList ((rows.filter (fun r => r.lname_nodir != lname)).map
        (fun r => r.lname_nodir))).map (fun lname2 => (lname, lname2)))

/-- Source add_corridor_lname: the corridor name column starts as the
stripped line name; then for each ordered pair of distinct line names,
when all of the first lines nodes lie on the second line the rows of
either line at the first lines nodes take the FIRST (contained) lines
name, and when all of the second lines nodes lie on the first line every
row at the second lines nodes takes the SECOND (contained) lines name
(this branch has no line-name restriction, as in the source). -/
def add_corridor_lname (in_df : List SbJoined) : List SbJoined :=
  let start := in_df.map (fun r => { r with corrname := r.lname_nodir })
  (acl_pairs in_df).foldl (fun df p =>
    let lnodes := nodes_of in_df p.1
    let lnodes2 := nodes_of in_df p.2
    let l1_in_l2 := lnodes.all (fun i => lnodes2.contains i)
    let l2_in_l1 := lnodes2.all (fun i => lnodes.contains i)
    if l1_in_l2 then
      df.map (fun r =>
        if ([p.1, p.2].contains r.lname_nodir) && lnodes.contains r.n then
          { r with corrname := p.1 }
        else r)
    else if l2_in_l1 then
      df.map (fun r =>
        if lnodes2.contains r.n then { r with corrname := p.2 } else r)
    else df) start

/-- Insertion into a string list sorted ascending. -/
def insertSorted (s : String) : List String → List String
  | [] => [s]
  | x :: xs => if s ≤ x then s :: x :: xs else x :: insertSorted s xs

/-- Ascending sort of the group keys, as pandas groupby performs. -/
def sortKeys (ks : List String) : List String := ks.foldr insertSorted []

/-- Commuter-rail daily-trip aggregation of the SB79 get_node_svc_data
(the commrail_trips computation): zero when the node has no
commuter-rail-colored row, otherwise group the commuter-rail rows by
corridor name, take the maximum daily trips per group, and read the first
value (pandas sorts the group keys, so the first group is the
lexicographically smallest corridor name). -/
def commrail_trips_at (df_node : List SbJoined) : ℚ :=
  let commrail_stns := df_node.filter (fun r => r.color == color_commrail)
  if commrail_stns.isEmpty then 0
  else
    match sortKeys (uniqueList (commrail_stns.map (fun r => r.corrname))) with
    | [] => 0
    | k :: _ => colMax 0 ((commrail_stns.filter (fun r => r.corrname == k)).map
        (fun r => r.day_trips))

/-- Commuter-rail trips attributed to one node by get_node_svc_data
(the df_node restriction followed by the corridor aggregation). -/
def crail_trips_for_node (df_lnd_data : List SbJoined) (node_id : Int) : ℚ :=
  commrail_trips_at (df_lnd_data.filter (fun r => r.n == node_id))

/-- Per-node inputs of get_sb79_tier: the light-rail and BRT line lists,
the bidirectional commuter-rail daily trips, and the urbanized transit
county flag added by add_urb_county_tag (an external spatial join,
injected as data). -/
structure SbNodeData where
  lrt_lines : String
  brt_lines : String
  crail_bidir_trps : ℚ
  sb79_urbcnty : Int
deriving DecidableEq

/-- Source get_sb79_tier: default tier 0; tier 3 when the node has light
rail, BRT, or commuter rail at or above either trip threshold (48 or 24);
afterwards tier 2 unconditionally overwrites when the node is in an
urbanized transit county and has light rail, BRT, or high-frequency
commuter rail (at or above 48 trips). -/
def get_sb79_tier (node_data : SbNodeData) : Nat :=
  let lrt_stop := node_data.lrt_lines != ""
  let brt_stop := node_data.brt_lines != ""
  let hfreq_commrail := decide (node_data.crail_bidir_trps ≥ 48)
  let freq_commrail := decide (node_data.crail_bidir_trps ≥ 24)
  let tier := 0
  let tier := if lrt_stop || brt_stop || hfreq_commrail || freq_commrail then 3 else tier
  let tier := if node_data.sb79_urbcnty == 1 && (lrt_stop || brt_stop || hfreq_commrail)
    then 2 else tier
  tier

/-- Concrete joined table with two commuter-rail-colored lines whose stop
sets are fully nested: AMTRCC at nodes 1,2,3 (20 daily trips) contains
AMTRCCS at nodes 1,2 (10 daily trips). -/
def c5rows : List SbJoined :=
  [⟨1, "AMTRCC", 9, 6, 20, ""⟩, ⟨2, "AMTRCC", 9, 6, 20, ""⟩, ⟨3, "AMTRCC", 9, 6, 20, ""⟩,
   ⟨1, "AMTRCCS", 9, 6, 10, ""⟩, ⟨2, "AMTRCCS", 9, 6, 10, ""⟩]

end SB79

namespace Trantxt

/-- Splitting a token list is processed by the make_node_lists loop piece
by piece: the second piece starts from the time-factor state the first
piece ends in. -/
theorem mnl_go_append (l1 l2 : List String) (tf : String) :
    mnl_go tf (l1 ++ l2) = mnl_go tf l1 ++ mnl_go (tf_after tf l1) l2 := by
  induction l1 generalizing tf with
  | nil => simp [mnl_go, tf_after]
  | cons attr rest ih =>
    simp only [List.cons_append, mnl_go, tf_after]
    cases h : pySplit (pyStrip attr) "=" with
    | nil => exact ih tf
    | cons a t =>
      cases t with
      | nil => simp [ih]
      | cons v t' =>
        by_cases h1 : a ∈ [f_node_attrname, nodes_long]
        · simp [h1, ih]
        · by_cases h2 : a ∈ f_tf_attrnames
          · simp [h1, h2, ih]
          · simp [h1, h2, ih]

/-- The time-factor state after a token list is the value of the last
time-factor attribute token in it, or the starting state when there is
none: the loop state agrees with the most-recent-attribute reading of
the spec. -/
theorem tf_after_spec (l : List String) (tf : String) :
    tf_after tf l = (l.filterMap tfValue?).getLastD tf := by
  induction l generalizing tf with
  | nil => rfl
  | cons attr rest ih =>
    simp only [tf_after, List.filterMap_cons, tfValue?]
    cases hs : pySplit (pyStrip attr) "=" with
    | nil => simpa using ih tf
    | cons a t =>
      cases t with
      | nil => simpa using ih tf
      | cons v t' =>
        by_cases h1 : a ∈ [f_node_attrname, nodes_long]
        · have h2 : a ∉ f_tf_attrnames := by
            have h1x : a = "N" ∨ a = "NODES" := by
              simpa [f_node_attrname, nodes_long] using h1
            rcases h1x with rfl | rfl <;> decide
          simp only [h1, if_true, h2, if_false]
          simpa using ih tf
        · by_cases h2 : a ∈ f_tf_attrnames
          · simp only [h1, if_false, h2, if_true]
            rw [List.getLastD_cons]
            exact ih (stripQuotes v)
          · simp only [h1, if_false, h2]
            simpa using ih tf

/-- A node-reference token at the head of the token list is emitted with
the current time-factor state attached. -/
theorem mnl_node_step (tf attr : String) (rest : List String) (nv : String)
    (h : nodeValOf? attr = some nv) :
    mnl_go tf (attr :: rest) = (nv, tf) :: mnl_go tf rest := by
  simp only [nodeValOf?] at h
  simp only [mnl_go]
  cases hs : pySplit (pyStrip attr) "=" with
  | nil => rw [hs] at h; simp at h
  | cons a t =>
    cases t with
    | nil =>
      rw [hs] at h
      simp only [Option.some.injEq] at h
      subst h; rfl
    | cons v t' =>
      rw [hs] at h
      by_cases h1 : a ∈ [f_node_attrname, nodes_long]
      · simp only [h1, if_true, Option.some.injEq] at h
        subst h; simp [h1]
      · simp [h1] at h

end Trantxt

/-- Claim C4: every StopVisit emitted for a block carries the value of
the most recent time-factor attribute earlier in that block, starting
from the default 0 at the beginning of every block and not persisting
from the previous block. First conjunct: for any block whose token list
puts a node-reference token after a prefix of tokens, make_node_lists
emits that node with the last time-factor value of the prefix, default 0
(the loop always starts at 0, so separate blocks are independent).
Second conjunct: a concrete two-block parse in which block L1 ends with
carried value 2.5 while block L2 starts again at 0. -/
theorem C4_carried_time_factor :
    (∀ (line_attrs_str : String) (pre : List String) (attr : String) (rest : List String)
        (nv : String),
        pySplit line_attrs_str "," = pre ++ attr :: rest →
        Trantxt.nodeValOf? attr = some nv →
        Trantxt.make_node_lists line_attrs_str =
          Trantxt.mnl_go "0" pre ++
            (nv, (pre.filterMap Trantxt.tfValue?).getLastD "0") ::
              Trantxt.mnl_go ((pre.filterMap Trantxt.tfValue?).getLastD "0") rest)
    ∧ (Trantxt.make_link_node_outputs Trantxt.tx_two_blocks).toOption.map Prod.snd =
        some [⟨"L1", "1", 0, "Y", "0"⟩, ⟨"L1", "2", 1, "Y", "2.5"⟩,
              ⟨"L1", "3", 2, "N", "2.5"⟩,
              ⟨"L2", "4", 0, "Y", "0"⟩, ⟨"L2", "5", 1, "Y", "0"⟩] := by
  constructor
  · intro s pre attr rest nv hsplit hnode
    unfold Trantxt.make_node_lists
    rw [hsplit, Trantxt.mnl_go_append, Trantxt.tf_after_spec,
      Trantxt.mnl_node_step ((pre.filterMap Trantxt.tfValue?).getLastD "0") attr rest nv hnode]
  · with_unfolding_all decide

/-- Witness for C4: a concrete block with one preceding time-factor
token, instantiating the first conjunct. -/
theorem C4_carried_time_factor_witness :
    pySplit "N=1, TF=2.2, 7,8" "," = ["N=1", " TF=2.2"] ++ " 7" :: ["8"]
    ∧ Trantxt.nodeValOf? " 7" = some "7"
    ∧ Trantxt.make_node_lists "N=1, TF=2.2, 7,8" =
        Trantxt.mnl_go "0" ["N=1", " TF=2.2"] ++
          ("7", (["N=1", " TF=2.2"].filterMap Trantxt.tfValue?).getLastD "0") ::
            Trantxt.mnl_go ((["N=1", " TF=2.2"].filterMap Trantxt.tfValue?).getLastD "0") ["8"] :=
  ⟨by with_unfolding_all decide, by with_unfolding_all decide,
   C4_carried_time_factor.1 "N=1, TF=2.2, 7,8" ["N=1", " TF=2.2"] " 7" ["8"] "7"
     (by with_unfolding_all decide) (by with_unfolding_all decide)⟩

/-- Claim C3 counterexample: a line block containing the token FOO BAR,
which cannot be decomposed into a recognized KEY=VALUE or integer
node-reference token, does NOT make parsing raise a fatal error naming
the line. The parse returns a complete ok result and silently emits the
garbage token as a node row. (No ParseError class exists anywhere in the
source; the only exception handler catches KeyError, prints, and returns
None.) -/
theorem C3_no_parse_error_counterexample :
    (Trantxt.make_link_node_outputs Trantxt.tx_garbage_token).toOption.map Prod.snd =
      some [⟨"LX", "1", 0, "Y", "0"⟩, ⟨"LX", "FOO BAR", 1, "Y", "0"⟩,
            ⟨"LX", "2", 2, "N", "0"⟩] := by
  with_unfolding_all decide

/-- Claim C3 amended: the parser raises no ParseError. A token that does
not decompose as KEY=VALUE is consumed as a node reference verbatim and
parsing returns a complete result (first conjunct); the only parse-time
failure for a degenerate token is a low-level IndexError, raised on an
empty node token, which does not name the offending line (second
conjunct, concrete). -/
theorem C3_malformed_block_behavior :
    (∀ (tf attr v : String) (rest : List String),
        pySplit (pyStrip attr) "=" = [v] →
        Trantxt.mnl_go tf (attr :: rest) = (v, tf) :: Trantxt.mnl_go tf rest)
    ∧ Trantxt.make_link_node_outputs Trantxt.tx_empty_token = .error .indexError := by
  constructor
  · intro tf attr v rest h
    simp only [Trantxt.mnl_go, h]
  · with_unfolding_all rfl

/-- Witness for the amended C3: the FOO BAR token instantiates the
token-fallback conjunct. -/
theorem C3_malformed_block_behavior_witness :
    pySplit (pyStrip " FOO BAR") "=" = ["FOO BAR"]
    ∧ Trantxt.mnl_go "0" (" FOO BAR" :: ["9"]) =
        ("FOO BAR", "0") :: Trantxt.mnl_go "0" ["9"] :=
  ⟨by with_unfolding_all decide,
   C3_malformed_block_behavior.1 "0" " FOO BAR" "FOO BAR" ["9"]
     (by with_unfolding_all decide)⟩

/-- Appending the direction tag of the first direction and stripping it
gives back the stripped name. -/
theorem strip_dirtag_tagA (k : String) : strip_dirtag (k ++ "_A") = k := by
  have hdata : (k ++ "_A").data = k.data ++ ['_', 'A'] := String.data_append k "_A"
  simp only [strip_dirtag, strTail2, strDropTail2, hdata, List.length_append]
  rw [show k.data.length + (['_', 'A'] : List Char).length - 2 = k.data.length + 0 by simp]
  rw [List.drop_append, List.take_append]
  simp [dir_tags]

/-- Appending the direction tag of the second direction and stripping it
gives back the stripped name. -/
theorem strip_dirtag_tagB (k : String) : strip_dirtag (k ++ "_B") = k := by
  have hdata : (k ++ "_B").data = k.data ++ ['_', 'B'] := String.data_append k "_B"
  simp only [strip_dirtag, strTail2, strDropTail2, hdata, List.length_append]
  rw [show k.data.length + (['_', 'B'] : List Char).length - 2 = k.data.length + 0 by simp]
  rw [List.drop_append, List.take_append]
  simp [dir_tags]

/-- Generalized invariant for uniqueList: folding a list whose elements
are all one value onto an accumulator of at most one (matching) element
yields at most one element. -/
theorem uniqueList_go_len {b : String} :
    ∀ (l : List String) (acc : List String),
      (∀ x ∈ l, x = b) → (∀ x ∈ acc, x = b) → acc.length ≤ 1 →
      (l.foldl (fun acc k => if acc.contains k then acc else acc ++ [k]) acc).length ≤ 1 := by
  intro l
  induction l with
  | nil => intro acc _ _ h; simpa using h
  | cons x xs ih =>
    intro acc hl hacc hlen
    simp only [List.foldl_cons]
    have hx : x = b := hl x (List.mem_cons_self x xs)
    by_cases hcon : acc.contains x = true
    · rw [if_pos hcon]
      exact ih acc (fun y hy => hl y (List.mem_cons_of_mem x hy)) hacc hlen
    · rw [if_neg hcon]
      have hacc_nil : acc = [] := by
        cases acc with
        | nil => rfl
        | cons a as =>
          exfalso
          apply hcon
          have ha : a = b := hacc a (List.mem_cons_self a as)
          subst hx
          subst ha
          simp
      subst hacc_nil
      exact ih [x] (fun y hy => hl y (List.mem_cons_of_mem x hy))
        (fun y hy => by simp at hy; exact hy.trans hx) (by simp)

/-- A list whose elements are all one value deduplicates to at most one
element. -/
theorem uniqueList_const {b : String} (l : List String) (h : ∀ x ∈ l, x = b) :
    (uniqueList l).length ≤ 1 :=
  uniqueList_go_len l [] h (by simp) (by simp)

namespace AB2097

/-- The merge step emits no rows for a left row of a different node. -/
theorem fds_merge_count_ne (olaps : List (Int × String)) (r : NodeSvc) (nid : Int)
    (hne : (r.n == nid) = false) :
    (fds_merge olaps r).countP (fun m => m.svc.n == nid) = 0 := by
  unfold fds_merge
  cases hms : olaps.filter (fun p => p.1 == r.n) with
  | nil => simp [List.countP_cons, hne]
  | cons m ms =>
    rw [List.countP_map]
    simp [Function.comp, hne]

/-- The merge step emits, for the left row of the requested node, one row
when there is no overlap record for it and one row per overlap record
otherwise. -/
theorem fds_merge_count_eq (olaps : List (Int × String)) (r : NodeSvc) (nid : Int)
    (heq : (r.n == nid) = true) :
    (fds_merge olaps r).countP (fun m => m.svc.n == nid) =
      max 1 (olaps.countP (fun p => p.1 == nid)) := by
  have hn : r.n = nid := by simpa using heq
  subst hn
  unfold fds_merge
  rw [List.countP_eq_length_filter (fun p => p.1 == r.n) olaps]
  cases hms : olaps.filter (fun p => p.1 == r.n) with
  | nil => simp [List.countP_cons]
  | cons m ms =>
    rw [List.countP_map]
    have hconst : ((fun m => m.svc.n == r.n) ∘
        (fun m' : Int × String => ({ svc := r, overlap := m'.2 } : MergedRow))) =
        fun _ => true := by
      funext x; simp
    rw [hconst, List.countP_true]
    have h1 : 1 ≤ (m :: ms).length := by simp
    rw [max_eq_right h1]

/-- A left table with no row of the requested node contributes no merged
row of that node. -/
theorem flat_count_zero (olaps : List (Int × String)) (nid : Int) :
    ∀ (l : List NodeSvc), l.countP (fun r => r.n == nid) = 0 →
    (l.flatMap (fds_merge olaps)).countP (fun m => m.svc.n == nid) = 0 := by
  intro l
  induction l with
  | nil => intro _; rfl
  | cons r rest ih =>
    intro h0
    rw [List.countP_cons] at h0
    have hne : (r.n == nid) = false := by
      cases hb : (r.n == nid) <;> simp [hb] at h0 ⊢
    rw [List.flatMap_cons, List.countP_append, fds_merge_count_ne olaps r nid hne,
      ih (by omega)]

/-- A left table with exactly one row of the requested node produces
max 1 k merged rows of that node, where k is the number of its overlap
records. -/
theorem flat_count_one (olaps : List (Int × String)) (nid : Int) :
    ∀ (l : List NodeSvc), l.countP (fun r => r.n == nid) = 1 →
    (l.flatMap (fds_merge olaps)).countP (fun m => m.svc.n == nid) =
      max 1 (olaps.countP (fun p => p.1 == nid)) := by
  intro l
  induction l with
  | nil => intro h; simp [List.countP_nil] at h
  | cons r rest ih =>
    intro h1
    rw [List.countP_cons] at h1
    rw [List.flatMap_cons, List.countP_append]
    cases hb : (r.n == nid) with
    | true =>
      rw [if_pos hb] at h1
      have h0 : rest.countP (fun r => r.n == nid) = 0 := by omega
      rw [fds_merge_count_eq olaps r nid hb, flat_count_zero olaps nid rest h0]
      simp
    | false =>
      rw [if_neg (by simp [hb])] at h1
      have hr : rest.countP (fun r => r.n == nid) = 1 := by omega
      rw [fds_merge_count_ne olaps r nid hb, ih hr]
      simp

/-- Every row passing the BRT filter passes the hi-frequency filter: the
BRT threshold is below the intersection threshold and the remaining BRT
conditions only add requirements. -/
theorem brt_imp_hifreq (r : JoinedRow) (h : brtPred r = true) : hifreqPred r = true := by
  simp only [brtPred, Bool.and_eq_true, decide_eq_true_eq] at h
  obtain ⟨⟨⟨⟨⟨⟨h1, h2⟩, h3⟩, h4⟩, h5⟩, h6⟩, h7⟩ := h
  simp only [hifreqPred, Bool.and_eq_true, decide_eq_true_eq]
  refine ⟨⟨⟨⟨⟨h1, h2⟩, h3⟩, ?_⟩, h5⟩, ?_⟩
  · exact le_trans h4 (by norm_num [hifreq_brt_th, hifreq_ix_th])
  · exact le_trans h6 (by norm_num [hifreq_brt_th, hifreq_ix_th])

/-- A row passing the rail filter passes neither bus filter: both demand
a non-rail mode and a name off the rail exception list. -/
theorem rail_not_brt (r : JoinedRow) (h : railPred r = true) :
    brtPred r = false ∧ hifreqPred r = false := by
  simp only [railPred, Bool.or_eq_true] at h
  cases h with
  | inl h1 => constructor <;> simp [brtPred, hifreqPred, bne, h1]
  | inr h2 =>
    have hmem : r.lname_nodir ∈ rail_exceptions_trimmed := by simpa using h2
    constructor <;> simp [brtPred, hifreqPred] <;> intro _ hnm <;> exact absurd hmem hnm

/-- Claim C1 counterexample: a node served by one rail-qualifying line
(RAILX, rail mode) and one BRT-qualifying line (BUS1, 10-minute peak
headways, bus lanes) ends with final category BRT, not Rail: the BRT
column assignment runs after the rail one and overwrites it, so the
claimed precedence rail over BRT does not hold. -/
theorem C1_rail_brt_counterexample :
    (make_hq_stop_df c1lines c1stops (fun _ => 1) true).toOption.map
      (List.map (fun r => (r.svc.rail_lines, r.svc.brt_lines, r.maj_stop))) =
    some [("RAILX", "BUS1", "BRT")] := by
  with_unfolding_all decide

/-- Claim C1 amended: the three sequential assignments order the
categories default, then Rail, then BRT, each overwriting the previous,
so a node with a nonblank BRT line set is tagged BRT even when its rail
set is nonblank, and Rail prevails only when the BRT set is blank; the
later hi-frequency intersection step never overwrites either tag (it
only touches rows still tagged non-major). -/
theorem C1_brt_overwrites_rail :
    ∀ (m : MergedRow) (out : HqStopRow), classify_row m = .ok out →
      ((["", " "].contains m.svc.brt_lines) = false → out.maj_stop = maj_brt)
      ∧ ((["", " "].contains m.svc.brt_lines) = true →
         (["", " "].contains m.svc.rail_lines) = false → out.maj_stop = maj_rail) := by
  intro m out h
  unfold classify_row init_maj_stop at h
  constructor
  · intro hb
    rw [hb] at h
    simp only [Bool.not_false, if_true] at h
    unfold get_hifreq_ix at h
    have : (maj_brt == not_maj) = false := by decide
    rw [this, Bool.and_false, if_neg (by simp)] at h
    cases h
    rfl
  · intro hb hr
    rw [hb, hr] at h
    simp only [Bool.not_false, Bool.not_true, Bool.false_eq_true, if_true, if_false] at h
    unfold get_hifreq_ix at h
    have : (maj_rail == not_maj) = false := by decide
    rw [this, Bool.and_false, if_neg (by simp)] at h
    cases h
    rfl

/-- Witness for the amended C1: a merged row with both a rail line and a
BRT line ends tagged BRT. -/
theorem C1_brt_overwrites_rail_witness :
    ((["", " "] : List String).contains "B1") = false
    ∧ (⟨⟨7, "R1;B1", "R1", "B1", "B1", 1⟩, "", "BRT", 1⟩ : HqStopRow).maj_stop = maj_brt :=
  ⟨by decide,
   (C1_brt_overwrites_rail ⟨⟨7, "R1;B1", "R1", "B1", "B1", 1⟩, ""⟩
      ⟨⟨7, "R1;B1", "R1", "B1", "B1", 1⟩, "", "BRT", 1⟩ (by with_unfolding_all rfl)).1
     (by decide)⟩

/-- Claim C2: for a node that is not rail and not BRT and has two or more
frequency-qualifying lines, the hi-frequency refinement collapses each
flagged nested pair into one unit and tags the node as a frequency
intersection exactly when the remaining unit count is still at least two
(first conjunct, where the net unit count is the net_hifreqlines output
column). Second and third conjuncts: the concrete scenario of the spec
through the whole pipeline, where L1 at 1,2,3,4 with L2 at 2,3 leaves
node 2 non-major with net count 1, and adding independent L3 at 5,6,2
restores the frequency-intersection tag for node 2 with net count 2. -/
theorem C2_frequency_overlap_resolution :
    (∀ (m : MergedRow) (out : HqStopRow),
      m.svc.rail_lines = "" → m.svc.brt_lines = "" → 2 ≤ m.svc.cnt_hifreqlines →
      classify_row m = .ok out →
      (out.maj_stop = maj_ix ↔ 2 ≤ out.net_hifreqlines))
    ∧ (make_hq_stop_df c2lines c2stops (fun _ => 0) true).toOption.map
        (List.map (fun r => (r.svc.n, r.maj_stop, r.net_hifreqlines))) =
      some [(1, "Non-major stop", 1), (2, "Non-major stop", 1),
            (3, "Non-major stop", 1), (4, "Non-major stop", 1)]
    ∧ (make_hq_stop_df c2linesB c2stopsB (fun _ => 0) true).toOption.map
        (List.map (fun r => (r.svc.n, r.maj_stop, r.net_hifreqlines))) =
      some [(1, "Non-major stop", 1), (2, "2+ Hi-frequency bus routes", 2),
            (3, "Non-major stop", 1), (4, "Non-major stop", 1),
            (5, "Non-major stop", 1), (6, "Non-major stop", 1)] := by
  refine ⟨?_, ?_, ?_⟩
  · intro m out hr hb hc h
    unfold classify_row init_maj_stop at h
    rw [hr, hb] at h
    have he : ((["", " "] : List String).contains "") = true := by decide
    rw [he] at h
    simp only [Bool.not_true, Bool.false_eq_true, if_false] at h
    unfold get_hifreq_ix at h
    have hcnt : decide (m.svc.cnt_hifreqlines > 1) = true := decide_eq_true (by omega)
    simp only [hcnt, Bool.true_and, beq_self_eq_true, if_true] at h
    split at h
    · split at h
      · cases h
      · cases h
        rename_i hfl heq
        by_cases hl : 2 ≤ hfl.length
        · have hd : decide (hfl.length > 1) = true := decide_eq_true (by omega)
          simp [hd, hl]
        · have hd : decide (hfl.length > 1) = false := decide_eq_false (by omega)
          simp [hd, hl, not_maj, maj_ix]
    · cases h
      simpa using hc
  · with_unfolding_all decide
  · with_unfolding_all decide

/-- Witness for C2: the merged row of node 2 in the two-line scenario,
whose single collapsed unit leaves it non-major with net count 1. -/
theorem C2_frequency_overlap_resolution_witness :
    2 ≤ (⟨⟨2, "L1;L2", "", "", "L1;L2", 2⟩, "L1-L2;"⟩ : MergedRow).svc.cnt_hifreqlines
    ∧ ((⟨⟨2, "L1;L2", "", "", "L1;L2", 2⟩, "L1-L2;", "Non-major stop", 1⟩ : HqStopRow).maj_stop
          = maj_ix
        ↔ 2 ≤ (⟨⟨2, "L1;L2", "", "", "L1;L2", 2⟩, "L1-L2;", "Non-major stop",
            1⟩ : HqStopRow).net_hifreqlines) :=
  ⟨by decide,
   C2_frequency_overlap_resolution.1 ⟨⟨2, "L1;L2", "", "", "L1;L2", 2⟩, "L1-L2;"⟩
     ⟨⟨2, "L1;L2", "", "", "L1;L2", 2⟩, "L1-L2;", "Non-major stop", 1⟩
     rfl rfl (by decide) (by with_unfolding_all rfl)⟩

/-- Claim C8 counterexample: with two distinct flagged overlap pairs at
node 2 (B nested in A and C nested in A), the overlap-annotation left
merge duplicates the row of node 2: the final table contains two rows
with that node identifier, not exactly one. -/
theorem C8_duplicate_row_counterexample :
    (make_hq_stop_df c8lines c8stops (fun _ => 0) true).toOption.map
      (fun l => l.countP (fun r => r.svc.n == 2)) = some 2 := by
  with_unfolding_all decide

/-- Claim C8 amended: for a node table with exactly one service row for a
node identifier, the overlap-annotation merge emits max 1 k rows for it,
where k is the number of overlap records collected for that node: exactly
one row when the node has no or one recorded overlap pair, and one row
per record (hence duplicates) when it has two or more. -/
theorem C8_rows_per_node :
    ∀ (hqt : List NodeSvc) (dfn : List StopNodir) (nid : Int),
      hqt.countP (fun r => r.n == nid) = 1 →
      (flag_dup_svc hqt dfn).countP (fun m => m.svc.n == nid) =
        max 1 ((node_overlap_rows (df_hf_of hqt) dfn).countP (fun p => p.1 == nid)) := by
  intro hqt dfn nid h1
  unfold flag_dup_svc
  exact flat_count_one _ nid hqt h1

/-- Witness for the amended C8: a one-row node table. -/
theorem C8_rows_per_node_witness :
    ([(⟨2, "", "", "", "", 0⟩ : NodeSvc)].countP (fun r => r.n == 2) = 1)
    ∧ (flag_dup_svc [⟨2, "", "", "", "", 0⟩] []).countP (fun m => m.svc.n == 2) =
        max 1 ((node_overlap_rows (df_hf_of [⟨2, "", "", "", "", 0⟩]) []).countP
          (fun p => p.1 == 2)) :=
  ⟨by with_unfolding_all decide,
   C8_rows_per_node [⟨2, "", "", "", "", 0⟩] [] 2 (by with_unfolding_all decide)⟩

/-- Claim C9 counterexample: an input with zero stop nodes does not
produce an empty result table; pandas DataFrame of the empty record list
has no columns, so the first column selection raises KeyError. -/
theorem C9_zero_stop_nodes_counterexample :
    make_hq_stop_df [⟨"BUS1", 2, 0, 10, 10⟩] [] (fun _ => 0) false =
      .error .keyError := by
  rfl

/-- Claim C9 amended: with zero qualifying lines after the stop-line join
(stop nodes present, join empty) the pipeline returns an empty result
table and no error (second conjunct); but with zero stop nodes it raises
KeyError instead of returning an empty table (first conjunct, for every
line table, bus-lane lookup and keep flag). -/
theorem C9_empty_input_behavior :
    (∀ (line_data : List TranLine) (buslane : Int → Int) (keep_all : Bool),
      make_hq_stop_df line_data [] buslane keep_all = .error .keyError)
    ∧ (make_hq_stop_df [⟨"ZZ_A", 2, 0, 10, 10⟩] [⟨"BUS9", 1, "Y"⟩]
        (fun _ => 0) false).toOption = some [] := by
  constructor
  · intro l b k
    rfl
  · with_unfolding_all decide

/-- Claim C10: the per-node qualifying sets of get_node_svc_data satisfy
the implicit invariants: every BRT-qualifying row is hi-frequency
qualifying (the per-row implication and the subset of the filtered
selections), and every rail-qualifying row is in neither bus selection. -/
theorem C10_qualifying_set_invariants :
    (∀ r : JoinedRow, brtPred r = true → hifreqPred r = true)
    ∧ (∀ r : JoinedRow, railPred r = true → brtPred r = false ∧ hifreqPred r = false)
    ∧ (∀ df_node : List JoinedRow, df_node.filter brtPred ⊆ df_node.filter hifreqPred)
    ∧ (∀ (df_node : List JoinedRow) (r : JoinedRow), r ∈ df_node.filter railPred →
        r ∉ df_node.filter brtPred ∧ r ∉ df_node.filter hifreqPred) := by
  refine ⟨brt_imp_hifreq, rail_not_brt, ?_, ?_⟩
  · intro df x hx
    rw [List.mem_filter] at hx ⊢
    exact ⟨hx.1, brt_imp_hifreq x hx.2⟩
  · intro df r hr
    rw [List.mem_filter] at hr
    have hfalse := rail_not_brt r hr.2
    constructor
    · intro hmem
      rw [List.mem_filter] at hmem
      rw [hfalse.1] at hmem
      cases hmem.2
    · intro hmem
      rw [List.mem_filter] at hmem
      rw [hfalse.2] at hmem
      cases hmem.2

/-- Witness for C10: a BRT-qualifying bus row is hi-frequency qualifying,
and a rail-mode row qualifies for neither bus set. -/
theorem C10_qualifying_set_invariants_witness :
    brtPred ⟨1, "Y", "B1", 2, 0, 10, 10, 1⟩ = true
    ∧ hifreqPred ⟨1, "Y", "B1", 2, 0, 10, 10, 1⟩ = true
    ∧ railPred ⟨1, "Y", "R1", 1, 0, 30, 30, 0⟩ = true
    ∧ (brtPred ⟨1, "Y", "R1", 1, 0, 30, 30, 0⟩ = false
       ∧ hifreqPred ⟨1, "Y", "R1", 1, 0, 30, 30, 0⟩ = false) :=
  ⟨by with_unfolding_all decide,
   C10_qualifying_set_invariants.1 ⟨1, "Y", "B1", 2, 0, 10, 10, 1⟩
     (by with_unfolding_all decide),
   by with_unfolding_all decide,
   C10_qualifying_set_invariants.2.1 ⟨1, "Y", "R1", 1, 0, 30, 30, 0⟩
     (by with_unfolding_all decide)⟩

end AB2097

namespace SB79

/-- Claim C5 counterexample: for the nested commuter-rail pair AMTRCC
(nodes 1,2,3) containing AMTRCCS (nodes 1,2), corridor consolidation
assigns the name of the CONTAINED shorter line AMTRCCS to every row at
the shared nodes (including the rows of the containing line AMTRCC), not
the name of the longer containing line as claimed; the second conjunct
shows the trip aggregation at shared node 1 then runs over that single
corridor group. -/
theorem C5_corridor_name_counterexample :
    (add_corridor_lname c5rows).map (fun r => (r.n, r.lname_nodir, r.corrname)) =
      [(1, "AMTRCC", "AMTRCCS"), (2, "AMTRCC", "AMTRCCS"), (3, "AMTRCC", "AMTRCC"),
       (1, "AMTRCCS", "AMTRCCS"), (2, "AMTRCCS", "AMTRCCS")]
    ∧ crail_trips_for_node (add_corridor_lname c5rows) 1 = 20 := by
  constructor
  · with_unfolding_all decide
  · with_unfolding_all decide

/-- Claim C5 amended: for a joined table whose deduplicated line names
are exactly a containing line A and a strictly contained line B (all
B nodes on A, not all A nodes on B), corridor consolidation assigns the
single corridor name B — the SHORTER contained line — to every row at a
node of B, and leaves every other row with its own line name; hence at
every shared node the commuter-rail rows carry at most one distinct
corridor name, so both lines daily-trip volumes enter the threshold
comparison under one corridor group. -/
theorem C5_corridor_contained_name :
    ∀ (rows : List SbJoined) (A B : String),
      acl_pairs rows = [(A, B), (B, A)] →
      (nodes_of rows B).all (fun i => (nodes_of rows A).contains i) = true →
      (nodes_of rows A).all (fun i => (nodes_of rows B).contains i) = false →
      (∀ r ∈ add_corridor_lname rows,
        ((nodes_of rows B).contains r.n = true → r.corrname = B)
        ∧ ((nodes_of rows B).contains r.n = false → r.corrname = r.lname_nodir))
      ∧ ∀ n : Int, (nodes_of rows B).contains n = true →
          (uniqueList (((add_corridor_lname rows).filter
              (fun r => r.n == n && r.color == color_commrail)).map
            (fun r => r.corrname))).length ≤ 1 := by
  intro rows A B hp hB hA
  have hrow : ∀ r ∈ add_corridor_lname rows,
      ((nodes_of rows B).contains r.n = true → r.corrname = B)
      ∧ ((nodes_of rows B).contains r.n = false → r.corrname = r.lname_nodir) := by
    unfold add_corridor_lname
    rw [hp]
    simp only [List.foldl_cons, List.foldl_nil, hA, hB, Bool.false_eq_true, if_false,
      if_true]
    intro r hr
    rw [List.map_map, List.map_map] at hr
    obtain ⟨r0, hr0, rfl⟩ := List.mem_map.mp hr
    by_cases hc : r0.n ∈ nodes_of rows B
    · by_cases hm : r0.lname_nodir = B ∨ r0.lname_nodir = A
      · simp [Function.comp, hc, hm]
      · simp [Function.comp, hc, hm]
    · simp [Function.comp, hc]
  refine ⟨hrow, ?_⟩
  intro n hn
  apply uniqueList_const
  intro x hx
  obtain ⟨r, hrmem, rfl⟩ := List.mem_map.mp hx
  obtain ⟨hradd, hcond⟩ := List.mem_filter.mp hrmem
  have hrn : r.n = n := by
    have hx1 := ((Bool.and_eq_true _ _).mp hcond).1
    simpa using hx1
  exact (hrow r hradd).1 (by rw [hrn]; exact hn)

/-- Witness for the amended C5: the concrete nested pair AMTRCC and
AMTRCCS instantiates the hypotheses. -/
theorem C5_corridor_contained_name_witness :
    acl_pairs c5rows = [("AMTRCC", "AMTRCCS"), ("AMTRCCS", "AMTRCC")]
    ∧ ((∀ r ∈ add_corridor_lname c5rows,
         ((nodes_of c5rows "AMTRCCS").contains r.n = true → r.corrname = "AMTRCCS")
         ∧ ((nodes_of c5rows "AMTRCCS").contains r.n = false →
            r.corrname = r.lname_nodir))
       ∧ ∀ n : Int, (nodes_of c5rows "AMTRCCS").contains n = true →
           (uniqueList (((add_corridor_lname c5rows).filter
               (fun r => r.n == n && r.color == color_commrail)).map
             (fun r => r.corrname))).length ≤ 1) :=
  ⟨by with_unfolding_all decide,
   C5_corridor_contained_name c5rows "AMTRCC" "AMTRCCS" (by with_unfolding_all decide)
     (by with_unfolding_all decide) (by with_unfolding_all decide)⟩

/-- Claim C6: the tier assigner gives tier 2 exactly when the node is in
an urbanized transit county and has light rail, BRT or high-frequency
commuter rail (at least 48 daily trips); tier 3 exactly when that tier-2
condition fails but the node has light rail, BRT or commuter rail at
either threshold (48 or 24); and the default tier 0 otherwise — in
particular the tier-2 assignment is evaluated after and overwrites the
tier-3 one. Final conjuncts: a light-rail node in a non-urbanized county
gets tier 3, and the same node in an urbanized county gets tier 2. -/
theorem C6_tier_assignment :
    (∀ d : SbNodeData,
      (get_sb79_tier d = 2 ↔
        (d.sb79_urbcnty = 1 ∧ (d.lrt_lines ≠ "" ∨ d.brt_lines ≠ "" ∨
          48 ≤ d.crail_bidir_trps)))
      ∧ (get_sb79_tier d = 3 ↔
        (¬(d.sb79_urbcnty = 1 ∧ (d.lrt_lines ≠ "" ∨ d.brt_lines ≠ "" ∨
            48 ≤ d.crail_bidir_trps))
          ∧ (d.lrt_lines ≠ "" ∨ d.brt_lines ≠ "" ∨ 48 ≤ d.crail_bidir_trps ∨
             24 ≤ d.crail_bidir_trps)))
      ∧ (get_sb79_tier d = 0 ↔
        ¬(d.lrt_lines ≠ "" ∨ d.brt_lines ≠ "" ∨ 48 ≤ d.crail_bidir_trps ∨
          24 ≤ d.crail_bidir_trps)))
    ∧ get_sb79_tier ⟨"LRT1", "", 0, 0⟩ = 3
    ∧ get_sb79_tier ⟨"LRT1", "", 0, 1⟩ = 2 := by
  refine ⟨?_, ?_, ?_⟩
  · intro d
    simp only [get_sb79_tier]
    split_ifs with hc2 hc3
    · simp only [Bool.and_eq_true, Bool.or_eq_true, bne_iff_ne, beq_iff_eq,
        decide_eq_true_eq, ge_iff_le] at hc2
      exact ⟨iff_of_true rfl (by tauto), iff_of_false (by norm_num) (by tauto),
        iff_of_false (by norm_num) (by tauto)⟩
    · simp only [Bool.and_eq_true, Bool.or_eq_true, bne_iff_ne, beq_iff_eq,
        decide_eq_true_eq, ge_iff_le] at hc2 hc3
      exact ⟨iff_of_false (by norm_num) (by tauto), iff_of_true rfl (by tauto),
        iff_of_false (by norm_num) (by tauto)⟩
    · simp only [Bool.and_eq_true, Bool.or_eq_true, bne_iff_ne, beq_iff_eq,
        decide_eq_true_eq, ge_iff_le] at hc2 hc3
      exact ⟨iff_of_false (by norm_num) (by tauto), iff_of_false (by norm_num) (by tauto),
        iff_of_true rfl (by tauto)⟩
  · with_unfolding_all decide
  · with_unfolding_all decide

/-- Claim C7 counterexample: in the SB79 variant the consolidation groups
by stripped name TOGETHER with mode and color, so the two records X plus
first direction tag (mode 1) and X plus second direction tag (mode 2),
whose names differ only by the direction suffix, do NOT consolidate into
one line: the result has two rows, both named X. -/
theorem C7_mode_split_counterexample :
    (create_line_df [⟨"X_A", 1, 4, 10, 0, 10, 0, 0⟩, ⟨"X_B", 2, 4, 12, 0, 12, 0, 0⟩]).map
      (fun r => (r.lname_nodir, r.mode)) = [("X", 1), ("X", 2)] := by
  with_unfolding_all decide

end SB79

/-- Claim C7 amended: stripping the two-character direction suffix (only
when present, third conjunct) groups two direction-suffixed records under
the shared key and reduces each headway column to the group minimum — in
the AB2097 variant for any two such records (first conjunct), and in the
SB79 variant additionally requiring equal mode and color, with daily
trips summed (second conjunct); concretely, X with suffixes and headways
10 and 12 consolidates to one line X with headway 10 (fourth conjunct). -/
theorem C7_direction_consolidation :
    (∀ (k : String) (m1 c1 : Int) (h1a h3a : ℚ) (m2 c2 : Int) (h1b h3b : ℚ),
      AB2097.create_line_df [⟨k ++ "_A", m1, c1, h1a, h3a⟩, ⟨k ++ "_B", m2, c2, h1b, h3b⟩] =
        [⟨k, min m1 m2, min c1 c2, min h1a h1b, min h3a h3b⟩])
    ∧ (∀ (k : String) (m c : Int) (a1 a2 a3 a4 a5 b1 b2 b3 b4 b5 : ℚ),
      SB79.create_line_df [⟨k ++ "_A", m, c, a1, a2, a3, a4, a5⟩,
          ⟨k ++ "_B", m, c, b1, b2, b3, b4, b5⟩] =
        [⟨k, m, c, min a1 b1, min a2 b2, min a3 b3, min a4 b4, min a5 b5,
          SB79.get_daily_trips ⟨k ++ "_A", m, c, a1, a2, a3, a4, a5⟩ +
            SB79.get_daily_trips ⟨k ++ "_B", m, c, b1, b2, b3, b4, b5⟩⟩])
    ∧ (∀ s : String, strTail2 s ∉ dir_tags → strip_dirtag s = s)
    ∧ AB2097.create_line_df [⟨"X_A", 2, 0, 10, 10⟩, ⟨"X_B", 2, 0, 12, 12⟩] =
        [⟨"X", 2, 0, 10, 10⟩] := by
  refine ⟨?_, ?_, ?_, ?_⟩
  · intro k m1 c1 h1a h3a m2 c2 h1b h3b
    unfold AB2097.create_line_df
    simp [strip_dirtag_tagA, strip_dirtag_tagB, uniqueList, colMin]
  · intro k m c a1 a2 a3 a4 a5 b1 b2 b3 b4 b5
    unfold SB79.create_line_df
    simp [strip_dirtag_tagA, strip_dirtag_tagB, uniqueList, colMin]
  · intro s h
    unfold strip_dirtag
    rw [if_neg h]
  · with_unfolding_all decide

/-- Witness for C7: a name not ending in a direction tag is left
unchanged by strip_dirtag. -/
theorem C7_direction_consolidation_witness :
    strTail2 "XYZ" ∉ dir_tags ∧ strip_dirtag "XYZ" = "XYZ" :=
  ⟨by decide, C7_direction_consolidation.2.2.1 "XYZ" (by decide)⟩

end MTS
